import Mathlib

/-!
Verification of the decorator-composition engine of the `decorate` attribute
crate (src/src/lib.rs), as a shallow embedding.

Modelling choices, mirroring the source:

* Emitted token streams are modelled by the inductive `Code`: each `quote!`
  template in the source that wraps a body corresponds to one constructor.
  The four shapes produced by `generate_validated_decorator_call` (sync/async
  crossed with with/without arguments) differ only in the presence of the
  argument list and the async-ness of the deferred closure, so they are one
  constructor `validatedCall` with an `Option` argument list and a Bool
  closure flag; likewise `directCall` for `generate_direct_decorator_call`.
* Syntactic categories the engine treats opaquely (configuration expressions,
  transform paths, decorator paths, argument expressions) are represented by
  `Nat` tags: the engine only moves them around, never inspects them.
* `Interp` supplies the runtime meaning of those opaque pieces so that the
  observable behaviour of emitted code can be stated: evaluation returns an
  event trace (side effects, in order) together with the returned value.
  Rust character classes `is_alphabetic` / `is_alphanumeric` are modelled by
  their ASCII behaviour (`Char.isAlpha` / `Char.isAlphanum`).
* Rust's `s.split('.')` is modelled by the executable `splitChar`, which has
  the same semantics (always at least one segment, empty segments kept).
-/

namespace error_messages

def NO_DECORATORS : String := "no decorator paths provided"

def CONST_FN_NOT_SUPPORTED : String := "cannot decorate const functions"

def CONST_FN_HELP : String := "remove the `const` keyword or use a regular function"

def SELF_PATH_MUST_START_WITH_SELF : String := "path must start with 'self'"

def SELF_PATH_EMPTY_SEGMENT : String := "path contains empty segment"

def SELF_PATH_INVALID_SEGMENT : String := "path segment must be a valid identifier"

def UNKNOWN_CONFIG_OPTION : String := "unknown configuration option"

def UNKNOWN_CONFIG_HELP : String := "valid options are: pre, post, transform_params, transform_result"

end error_messages

/-- Configuration record of one decorator entry (struct `DecoratorConfig`).
Expressions and paths are opaque `Nat` tags. -/
structure DecoratorConfig where
  pre_code : Option Nat := none
  post_code : Option Nat := none
  transform_params : Option Nat := none
  transform_result : Option Nat := none
deriving DecidableEq, Repr

/-- Predicate `DecoratorConfig::has_any`. -/
def DecoratorConfig.has_any (c : DecoratorConfig) : Bool :=
  c.pre_code.isSome || c.post_code.isSome || c.transform_params.isSome
    || c.transform_result.isSome

/-- Member-access expression produced by the path resolver (`parse_self_path`):
the receiver, or a field access on a smaller such expression. -/
inductive SelfExpr where
  | selfIdent : SelfExpr
  | fieldAccess (base : SelfExpr) (field : String) : SelfExpr
deriving DecidableEq, Repr

/-- The `Either<Path, Expr>` stored in `DecoratorCall::path`: a plain path
(opaque tag) or a resolved self-path expression. -/
inductive DecoratorRef where
  | staticPath (p : Nat) : DecoratorRef
  | selfExpr (e : SelfExpr) : DecoratorRef
deriving DecidableEq, Repr

/-- One parsed decorator entry (struct `DecoratorCall`); the span field is
dropped (it only affects diagnostics locations). Argument expressions are
opaque tags. -/
structure DecoratorCall where
  config : Option DecoratorConfig
  path : DecoratorRef
  args : Option (List Nat)
deriving DecidableEq, Repr

/-- A function-parameter pattern (`syn::Pat`), as far as the engine looks at
it: a simple identifier pattern, or anything else. -/
inductive Pat where
  | ident (name : String) : Pat
  | other : Pat
deriving DecidableEq, Repr

/-- A function argument (`syn::FnArg`): a receiver (`self`) or a typed
pattern. -/
inductive FnArg where
  | receiver : FnArg
  | typed (pat : Pat) : FnArg
deriving DecidableEq, Repr

/-- Function `extract_param_names`: the identifiers of the simple typed
parameters, in order; receivers and complex patterns are skipped. -/
def extract_param_names (inputs : List FnArg) : List String :=
  inputs.filterMap fun arg =>
    match arg with
    | FnArg.typed (Pat.ident n) => some n
    | FnArg.typed Pat.other => none
    | FnArg.receiver => none

/-- Emitted code, one constructor per `quote!` wrapping template:
`body` is the original function body; `paramTransform`, `preHook`,
`postHook`, `resultTransform` are the four blocks built by
`apply_config_transformations`; `validatedCall` / `directCall` are the
decorator invocations built by `generate_validated_decorator_call` /
`generate_direct_decorator_call` (the Bool is the async-ness of the
deferred closure `|| body` vs `|| async { body }`). -/
inductive Code where
  | body : Code
  | paramTransform (t : Nat) (names : List String) (inner : Code) : Code
  | preHook (e : Nat) (inner : Code) : Code
  | postHook (e : Nat) (inner : Code) : Code
  | resultTransform (t : Nat) (inner : Code) : Code
  | validatedCall (dec : DecoratorRef) (args : Option (List Nat))
      (closureAsync : Bool) (inner : Code) : Code
  | directCall (dec : DecoratorRef) (args : Option (List Nat))
      (closureAsync : Bool) (inner : Code) : Code
deriving DecidableEq, Repr

/-- Function `generate_direct_decorator_call`: a direct invocation
`decorator(args..., || body)`, used for self-path decorators. -/
def generate_direct_decorator_call (decorator_expr : DecoratorRef)
    (args : Option (List Nat)) (body : Code) (is_async : Bool) : Code :=
  Code.directCall decorator_expr args is_async body

/-- Function `generate_validated_decorator_call`: for self-paths delegate to
the direct form; otherwise emit the block that binds the decorator and the
deferred closure to local variables before calling. -/
def generate_validated_decorator_call (decorator_expr : DecoratorRef)
    (args : Option (List Nat)) (body : Code) (is_async : Bool)
    (is_self_path : Bool) : Code :=
  if is_self_path then
    generate_direct_decorator_call decorator_expr args body is_async
  else
    Code.validatedCall decorator_expr args is_async body

/-- Function `apply_config_transformations`: wrap `body` successively with the
parameter transform (only when there is at least one simple named parameter),
the pre hook, the post hook, and the result transform, in that application
order — so the last-applied wrap, the result transform, ends outermost. -/
def apply_config_transformations (config : DecoratorConfig) (body : Code)
    (fn_inputs : List FnArg) : Code :=
  let body :=
    match config.transform_params with
    | some t =>
      let param_names := extract_param_names fn_inputs
      if param_names.isEmpty then body
      else Code.paramTransform t param_names body
    | none => body
  let body :=
    match config.pre_code with
    | some p => Code.preHook p body
    | none => body
  let body :=
    match config.post_code with
    | some p => Code.postHook p body
    | none => body
  match config.transform_result with
  | some t => Code.resultTransform t body
  | none => body

/-- Loop body of `generate_decorated_body`: apply the entry's configuration
transformations (when it has a config), then wrap in the decorator call,
direct for self-paths and validated otherwise. -/
def wrapEntry (fn_inputs : List FnArg) (is_async : Bool)
    (decorated_body : Code) (decorator : DecoratorCall) : Code :=
  let decorated_body :=
    match decorator.config with
    | some config => apply_config_transformations config decorated_body fn_inputs
    | none => decorated_body
  let is_self_path :=
    match decorator.path with
    | DecoratorRef.staticPath _ => false
    | DecoratorRef.selfExpr _ => true
  generate_validated_decorator_call decorator.path decorator.args
    decorated_body is_async is_self_path

/-- Function `generate_decorated_body`: fold the entries over the original
body in reverse source order (`decorators.iter().rev()`). -/
def generate_decorated_body (decorators : List DecoratorCall)
    (original_body : Code) (fn_inputs : List FnArg) (is_async : Bool) : Code :=
  decorators.reverse.foldl (wrapEntry fn_inputs is_async) original_body

/-- The subset of `syn::ItemFn` the engine inspects: the `const` and `async`
qualifiers and the parameter list. Visibility, name, generics, return type
and attributes are carried through verbatim and are not modelled. -/
structure ItemFn where
  constness : Bool
  asyncness : Bool
  inputs : List FnArg
deriving DecidableEq, Repr

/-- The function emitted by `decorate`: the composed body, and whether the
emitted body is `#decorated_body.await` (async) or plain. -/
structure EmittedFn where
  body : Code
  awaited : Bool
deriving DecidableEq, Repr

/-- Fatal diagnostics issued by `decorate` itself (each carries the message
text from `error_messages`). -/
inductive DecorateError where
  | noDecorators (msg : String) : DecorateError
  | constFnNotSupported (msg : String) (help : String) : DecorateError
deriving DecidableEq, Repr

/-- Entry point `decorate` on structured inputs: reject an empty decorator
list, then reject `const` functions, otherwise emit the composed function
(awaited when async). Token-level parse failures are outside the model. -/
def decorate (attr : List DecoratorCall) (item : ItemFn) :
    Except DecorateError EmittedFn :=
  if attr.isEmpty then
    Except.error (DecorateError.noDecorators error_messages.NO_DECORATORS)
  else if item.constness then
    Except.error (DecorateError.constFnNotSupported
      error_messages.CONST_FN_NOT_SUPPORTED error_messages.CONST_FN_HELP)
  else
    let is_async := item.asyncness
    let decorated_body :=
      generate_decorated_body attr Code.body item.inputs is_async
    Except.ok { body := decorated_body, awaited := is_async }

/-- Observable events of one execution of emitted code, in order:
pre-hook and post-hook evaluations (the post event records the bound
`__decorate_result` value the hook observes), transform-function calls, and
the original body's execution. -/
inductive Event where
  | pre (tag : Nat) : Event
  | post (tag : Nat) (observed : Int) : Event
  | tparams (tag : Nat) : Event
  | tresult (tag : Nat) : Event
  | body : Event
deriving DecidableEq, Repr

/-- Runtime meaning of the opaque pieces: the original body as a function of
the (simple named) parameter values, the two transform families, and the
behaviour of each decorator, which receives the deferred closure over the
wrapped code. -/
structure Interp where
  bodyFn : List Int → Int
  tparamsFn : Nat → List Int → List Int
  tresultFn : Nat → Int → Int
  applyDec : DecoratorRef → Option (List Nat) →
    (Unit → List Event × Int) → List Event × Int

/-- Evaluation of emitted code: trace of events plus returned value.
Each case follows the corresponding emitted block: the parameter transform
rebinds the parameters before its inner block runs; the pre hook runs before
its inner block; the post hook binds the inner result, runs, and yields it
unchanged; the result transform binds the inner result and yields its image;
a decorator call hands the deferred closure to the decorator. -/
def evalCode (I : Interp) : List Int → Code → List Event × Int
  | params, Code.body => ([Event.body], I.bodyFn params)
  | params, Code.paramTransform t _names inner =>
    let r := evalCode I (I.tparamsFn t params) inner
    (Event.tparams t :: r.1, r.2)
  | params, Code.preHook e inner =>
    let r := evalCode I params inner
    (Event.pre e :: r.1, r.2)
  | params, Code.postHook e inner =>
    let r := evalCode I params inner
    (r.1 ++ [Event.post e r.2], r.2)
  | params, Code.resultTransform t inner =>
    let r := evalCode I params inner
    (r.1 ++ [Event.tresult t], I.tresultFn t r.2)
  | params, Code.validatedCall dec args _casync inner =>
    I.applyDec dec args (fun _ => evalCode I params inner)
  | params, Code.directCall dec args _casync inner =>
    I.applyDec dec args (fun _ => evalCode I params inner)

/-- Whether every deferred closure occurring in emitted code is an async
closure (`|| async { ... }`). -/
def allClosuresAsync : Code → Bool
  | Code.body => true
  | Code.paramTransform _ _ inner => allClosuresAsync inner
  | Code.preHook _ inner => allClosuresAsync inner
  | Code.postHook _ inner => allClosuresAsync inner
  | Code.resultTransform _ inner => allClosuresAsync inner
  | Code.validatedCall _ _ casync inner => casync && allClosuresAsync inner
  | Code.directCall _ _ casync inner => casync && allClosuresAsync inner

/-- Function `is_valid_identifier`: nonempty, first character alphabetic or
underscore, remaining characters alphanumeric or underscore (Rust's Unicode
classes modelled by their ASCII behaviour). -/
def is_valid_identifier (s : String) : Bool :=
  if s.isEmpty then false
  else
    match s.data with
    | [] => false
    | c :: rest => (c.isAlpha || c == '_') && rest.all fun ch => ch.isAlphanum || ch == '_'

/-- Rust's `str::split` on a separator character, on the character list:
always yields at least one segment and keeps empty segments. -/
def splitChar (sep : Char) : List Char → List String
  | [] => [""]
  | c :: rest =>
    let r := splitChar sep rest
    if c = sep then "" :: r
    else
      match r with
      | [] => [String.mk [c]]
      | h :: t => String.mk (c :: h.data) :: t

/-- Diagnostics of the path resolver `parse_self_path`. -/
inductive SelfPathError where
  | malformedSelfPath : SelfPathError
  | emptyPathSegment : SelfPathError
  | invalidIdentifierSegment (seg : String) : SelfPathError
deriving DecidableEq, Repr

/-- Message text attached to each path-resolver diagnostic in the source. -/
def SelfPathError.message : SelfPathError → String
  | SelfPathError.malformedSelfPath => error_messages.SELF_PATH_MUST_START_WITH_SELF
  | SelfPathError.emptyPathSegment => error_messages.SELF_PATH_EMPTY_SEGMENT
  | SelfPathError.invalidIdentifierSegment seg =>
      error_messages.SELF_PATH_INVALID_SEGMENT ++ ": '" ++ seg ++ "'"

/-- The validation loop of `parse_self_path` over the segments, carrying the
index: an empty segment is rejected first, then a non-first segment failing
identifier syntax. -/
def checkSegments : Nat → List String → Except SelfPathError Unit
  | _, [] => Except.ok ()
  | i, seg :: rest =>
    if seg.isEmpty then Except.error SelfPathError.emptyPathSegment
    else if 0 < i ∧ is_valid_identifier seg = false then
      Except.error (SelfPathError.invalidIdentifierSegment seg)
    else checkSegments (i + 1) rest

/-- Function `parse_self_path`: split on dots, require the first segment to be
`self`, validate every segment, then build the left-associated member-access
chain over the remaining segments. -/
def parse_self_path (s : String) : Except SelfPathError SelfExpr :=
  let segments := splitChar '.' s.data
  match segments with
  | [] => Except.error SelfPathError.malformedSelfPath
  | s0 :: rest =>
    if s0 ≠ "self" then Except.error SelfPathError.malformedSelfPath
    else
      match checkSegments 0 (s0 :: rest) with
      | Except.error e => Except.error e
      | Except.ok _ =>
        Except.ok (rest.foldl (fun e seg => SelfExpr.fieldAccess e seg)
          SelfExpr.selfIdent)

/-- Diagnostics of the entry parser `DecoratorCall::parse` modelled here. -/
inductive ParseError where
  | unknownConfigOption (key : String) (msg : String) (help : String) : ParseError
deriving DecidableEq, Repr

/-- One iteration of the configuration loop in `DecoratorCall::parse`: a
recognized key overwrites the corresponding field, an unknown key is a hard
error. -/
def applyConfigPair (config : DecoratorConfig) (kv : String × Nat) :
    Except ParseError DecoratorConfig :=
  match kv.1 with
  | "pre" => Except.ok { config with pre_code := some kv.2 }
  | "post" => Except.ok { config with post_code := some kv.2 }
  | "transform_params" => Except.ok { config with transform_params := some kv.2 }
  | "transform_result" => Except.ok { config with transform_result := some kv.2 }
  | _ => Except.error (ParseError.unknownConfigOption kv.1
      error_messages.UNKNOWN_CONFIG_OPTION error_messages.UNKNOWN_CONFIG_HELP)

/-- The configuration loop of `DecoratorCall::parse`, folded over the
`key = value` pairs in source order, starting from the default (all-absent)
config. -/
def parseConfigPairs : DecoratorConfig → List (String × Nat) →
    Except ParseError DecoratorConfig
  | config, [] => Except.ok config
  | config, kv :: rest =>
    match applyConfigPair config kv with
    | Except.ok config2 => parseConfigPairs config2 rest
    | Except.error e => Except.error e

/-- Tail of `DecoratorCall::parse` on structured input: run the configuration
loop, then store the config only when some field is set (`has_any`). -/
def DecoratorCall.parseEntry (pairs : List (String × Nat)) (ref : DecoratorRef)
    (args : Option (List Nat)) : Except ParseError DecoratorCall :=
  match parseConfigPairs {} pairs with
  | Except.error e => Except.error e
  | Except.ok config =>
    Except.ok { config := if config.has_any then some config else none,
                path := ref, args := args }

/-- Value of the last pair with the given key, if any: later pairs win. -/
def lastValueFor (k : String) : List (String × Nat) → Option Nat
  | [] => none
  | kv :: rest =>
    match lastValueFor k rest with
    | some v => some v
    | none => if kv.1 = k then some kv.2 else none

/-- First option when present, otherwise the fallback. -/
def pickOpt (o fallback : Option Nat) : Option Nat :=
  match o with
  | some v => some v
  | none => fallback

/-- A concrete interpretation used for the concrete executions below: the
body adds its two parameters, every parameter transform adds one to each of
two parameters, every result transform doubles, and every decorator simply
runs the deferred closure (the value behaviour of `log_execution` in the
repository's tests). -/
def demoInterp : Interp where
  bodyFn := fun params =>
    match params with
    | [x, y] => x + y
    | _ => 0
  tparamsFn := fun _ params =>
    match params with
    | [x, y] => [x + 1, y + 1]
    | _ => params
  tresultFn := fun _ r => r * 2
  applyDec := fun _ _ f => f ()

-- ============================================================================
-- Helper lemmas (shared)
-- ============================================================================

/-- Unfolding of the reverse fold: the first-listed entry is wrapped last,
hence ends outermost. -/
theorem generate_decorated_body_cons (d : DecoratorCall) (ds : List DecoratorCall)
    (original_body : Code) (fn_inputs : List FnArg) (is_async : Bool) :
    generate_decorated_body (d :: ds) original_body fn_inputs is_async
      = wrapEntry fn_inputs is_async
          (generate_decorated_body ds original_body fn_inputs is_async) d := by
  simp [generate_decorated_body, List.foldl_append]

-- ============================================================================
-- Claim theorems
-- ============================================================================

/-- C2: for a three-entry list [A, B, C] the composed body wraps outside-in in
source order — A's wrapping is outermost, C's innermost around the original
body — and for configuration-free entries with plain paths the emitted shape
is exactly the validated call of A around the validated call of B around the
validated call of C around the original body, each with its own argument
list and a deferred closure over the next layer. -/
theorem C2_nesting_outside_in (A B C : DecoratorCall) (fn_inputs : List FnArg)
    (is_async : Bool) :
    (generate_decorated_body [A, B, C] Code.body fn_inputs is_async
      = wrapEntry fn_inputs is_async
          (wrapEntry fn_inputs is_async
            (wrapEntry fn_inputs is_async Code.body C) B) A)
    ∧ ∀ (pa pb pc : Nat) (aa ab ac : Option (List Nat)),
        generate_decorated_body
          [{ config := none, path := DecoratorRef.staticPath pa, args := aa },
           { config := none, path := DecoratorRef.staticPath pb, args := ab },
           { config := none, path := DecoratorRef.staticPath pc, args := ac }]
          Code.body fn_inputs is_async
        = Code.validatedCall (DecoratorRef.staticPath pa) aa is_async
            (Code.validatedCall (DecoratorRef.staticPath pb) ab is_async
              (Code.validatedCall (DecoratorRef.staticPath pc) ac is_async
                Code.body)) := by
  constructor
  · rfl
  · intro pa pb pc aa ab ac
    rfl

/-- C4: for a singleton specification with no configuration and no arguments,
the generated body evaluates exactly as the direct call
`decorator(|| original_body)`: both hand the decorator the deferred closure
over the original body, for every interpretation of the decorator. -/
theorem C4_singleton_identity_wrap (I : Interp) (params : List Int) (p : Nat)
    (fn_inputs : List FnArg) (is_async : Bool) :
    (evalCode I params
        (generate_decorated_body
          [{ config := none, path := DecoratorRef.staticPath p, args := none }]
          Code.body fn_inputs is_async)
      = evalCode I params
          (Code.directCall (DecoratorRef.staticPath p) none is_async Code.body))
    ∧ evalCode I params
        (Code.directCall (DecoratorRef.staticPath p) none is_async Code.body)
      = I.applyDec (DecoratorRef.staticPath p) none
          (fun _ => evalCode I params Code.body) := by
  exact ⟨rfl, rfl⟩

/-- C5: the body x+y decorated with the parameter transform (x,y)->(x+1,y+1)
and the result transform r->r*2 yields ((1+1)+(2+1))*2 = 10 on the call
compute(1, 2), through the full pipeline with a value-preserving decorator. -/
theorem C5_transforms_compose :
    (decorate
        [{ config := some { pre_code := none, post_code := none,
                            transform_params := some 0, transform_result := some 1 },
           path := DecoratorRef.staticPath 5, args := none }]
        { constness := false, asyncness := false,
          inputs := [FnArg.typed (Pat.ident "x"), FnArg.typed (Pat.ident "y")] }).map
      (fun out => (evalCode demoInterp [1, 2] out.body).2)
      = Except.ok 10 := by
  rfl

/-- C7: an empty decorator list is rejected with the no-decorators diagnosis
for every function shape, and no output function is emitted; the diagnosis is
a constructor distinct from every other diagnosis of the engine. -/
theorem C7_empty_list_rejected (item : ItemFn) :
    decorate [] item
      = Except.error (DecorateError.noDecorators error_messages.NO_DECORATORS) := by
  rfl

/-- C8: a const-qualified function with any non-empty decorator list is
rejected with the cannot-decorate diagnosis carrying the remove-const remedy,
and no output function (hence no generated code) is produced. -/
theorem C8_const_fn_rejected (attr : List DecoratorCall) (item : ItemFn)
    (hconst : item.constness = true) (hne : attr ≠ []) :
    decorate attr item
      = Except.error (DecorateError.constFnNotSupported
          error_messages.CONST_FN_NOT_SUPPORTED error_messages.CONST_FN_HELP) := by
  cases attr with
  | nil => exact absurd rfl hne
  | cons d ds => simp [decorate, hconst]

/-- Witness for C8 at a concrete const function and singleton list. -/
theorem C8_const_fn_rejected_witness :
    decorate [{ config := none, path := DecoratorRef.staticPath 0, args := none }]
        { constness := true, asyncness := false, inputs := [] }
      = Except.error (DecorateError.constFnNotSupported
          error_messages.CONST_FN_NOT_SUPPORTED error_messages.CONST_FN_HELP) :=
  C8_const_fn_rejected _ _ rfl (by simp)

/-- C1 counterexample: with all four configuration fields present, the
generated wrapping has the result transform outermost and the parameter
transform innermost — not the other way round — so the pre hook executes
before the parameter transform (the trace starts with the pre event), and
the post hook observes the result before the result transform is applied
(it observes 5, not the transformed 10). -/
theorem C1_counterexample :
    (apply_config_transformations
        { pre_code := some 10, post_code := some 11,
          transform_params := some 12, transform_result := some 13 }
        Code.body [FnArg.typed (Pat.ident "x"), FnArg.typed (Pat.ident "y")]
      = Code.resultTransform 13 (Code.postHook 11 (Code.preHook 10
          (Code.paramTransform 12 ["x", "y"] Code.body))))
    ∧ apply_config_transformations
        { pre_code := some 10, post_code := some 11,
          transform_params := some 12, transform_result := some 13 }
        Code.body [FnArg.typed (Pat.ident "x"), FnArg.typed (Pat.ident "y")]
      ≠ Code.paramTransform 12 ["x", "y"] (Code.preHook 10 (Code.postHook 11
          (Code.resultTransform 13 Code.body)))
    ∧ (evalCode demoInterp [1, 2]
        (apply_config_transformations
          { pre_code := some 10, post_code := some 11,
            transform_params := some 12, transform_result := some 13 }
          Code.body [FnArg.typed (Pat.ident "x"), FnArg.typed (Pat.ident "y")])).1
      = [Event.pre 10, Event.tparams 12, Event.body, Event.post 11 5,
         Event.tresult 13]
    ∧ ([Event.pre 10, Event.tparams 12, Event.body, Event.post 11 5,
        Event.tresult 13].head? = some (Event.pre 10))
    ∧ Event.post 11 10 ∉ [Event.pre 10, Event.tparams 12, Event.body,
        Event.post 11 5, Event.tresult 13] := by
  refine ⟨rfl, by decide, rfl, rfl, by decide⟩

/-- C1 amended: for every configuration, whichever of the four fields are
present nest in reverse listed order — the result transform outermost, then
the post hook, then the pre hook, with the parameter transform innermost
(present only when the function has a simple named parameter) — and the
execution trace shows the same order: any pre hook runs first, then any
parameter transform, then the body, then any post hook observing the result
before any result transform, which runs last and alone changes the value. -/
theorem C1_amended_nesting (I : Interp) (params : List Int)
    (config : DecoratorConfig) (fn_inputs : List FnArg) :
    (let names := extract_param_names fn_inputs
     let inner0 : Code := Option.elim config.transform_params Code.body
       (fun tp => if names.isEmpty then Code.body
                  else Code.paramTransform tp names Code.body)
     let inner1 : Code := Option.elim config.pre_code inner0
       (fun pr => Code.preHook pr inner0)
     let inner2 : Code := Option.elim config.post_code inner1
       (fun po => Code.postHook po inner1)
     apply_config_transformations config Code.body fn_inputs
       = Option.elim config.transform_result inner2
           (fun tr => Code.resultTransform tr inner2))
    ∧ (let names := extract_param_names fn_inputs
       let params2 := Option.elim config.transform_params params
         (fun tp => if names.isEmpty then params else I.tparamsFn tp params)
       let v := I.bodyFn params2
       evalCode I params (apply_config_transformations config Code.body fn_inputs)
         = (Option.elim config.pre_code [] (fun pr => [Event.pre pr])
             ++ Option.elim config.transform_params []
                 (fun tp => if names.isEmpty then [] else [Event.tparams tp])
             ++ [Event.body]
             ++ Option.elim config.post_code [] (fun po => [Event.post po v])
             ++ Option.elim config.transform_result []
                 (fun tr => [Event.tresult tr]),
            Option.elim config.transform_result v (fun tr => I.tresultFn tr v))) := by
  obtain ⟨o1, o2, o3, o4⟩ := config
  constructor
  · cases o1 <;> cases o2 <;> cases o3 <;> cases o4 <;>
      cases hx : (extract_param_names fn_inputs).isEmpty <;>
        simp [apply_config_transformations, Option.elim, hx]
  · cases o1 <;> cases o2 <;> cases o3 <;> cases o4 <;>
      cases hx : (extract_param_names fn_inputs).isEmpty <;>
        simp [apply_config_transformations, evalCode, Option.elim, hx]

/-- Witness for C1's amended theorem, exercising a two-field configuration
(pre and post only): the post wrap is outermost of the two and the trace is
pre, body, post. -/
theorem C1_amended_nesting_witness :
    apply_config_transformations
        { pre_code := some 30, post_code := some 31,
          transform_params := none, transform_result := none }
        Code.body []
      = Code.postHook 31 (Code.preHook 30 Code.body)
    ∧ evalCode demoInterp [1, 2]
        (apply_config_transformations
          { pre_code := some 30, post_code := some 31,
            transform_params := none, transform_result := none }
          Code.body [])
      = ([Event.pre 30, Event.body, Event.post 31 3], 3) := by
  have h := C1_amended_nesting demoInterp [1, 2]
    { pre_code := some 30, post_code := some 31,
      transform_params := none, transform_result := none } []
  exact ⟨h.1, h.2⟩

/-- C3: a configuration setting only the pre and post hooks leaves the
returned value identical to the undecorated body's value, while the pre and
post events each occur exactly once, in pre-then-post order around the body
event. -/
theorem C3_pre_post_preserve_value (I : Interp) (params : List Int)
    (config : DecoratorConfig) (fn_inputs : List FnArg) (p q : Nat)
    (hpre : config.pre_code = some p) (hpost : config.post_code = some q)
    (htp : config.transform_params = none) (htr : config.transform_result = none) :
    evalCode I params (apply_config_transformations config Code.body fn_inputs)
      = ([Event.pre p, Event.body, Event.post q (I.bodyFn params)],
         I.bodyFn params)
    ∧ (evalCode I params (apply_config_transformations config Code.body fn_inputs)).2
      = (evalCode I params Code.body).2 := by
  have hstruct : apply_config_transformations config Code.body fn_inputs
      = Code.postHook q (Code.preHook p Code.body) := by
    simp only [apply_config_transformations, hpre, hpost, htp, htr]
  exact ⟨by rw [hstruct]; rfl, by rw [hstruct]; rfl⟩

/-- Witness for C3 at a concrete configuration and call. -/
theorem C3_pre_post_preserve_value_witness :
    evalCode demoInterp [1, 2]
        (apply_config_transformations
          { pre_code := some 7, post_code := some 8,
            transform_params := none, transform_result := none }
          Code.body [])
      = ([Event.pre 7, Event.body, Event.post 8 3], 3)
    ∧ (evalCode demoInterp [1, 2]
        (apply_config_transformations
          { pre_code := some 7, post_code := some 8,
            transform_params := none, transform_result := none }
          Code.body [])).2
      = (evalCode demoInterp [1, 2] Code.body).2 :=
  C3_pre_post_preserve_value demoInterp [1, 2] _ [] 7 8 rfl rfl rfl rfl

/-- Configuration wrapping adds no closures, so it preserves the
all-closures-async property. -/
theorem allClosuresAsync_apply_config (c : DecoratorConfig) (b : Code)
    (fn_inputs : List FnArg) :
    allClosuresAsync (apply_config_transformations c b fn_inputs)
      = allClosuresAsync b := by
  obtain ⟨o1, o2, o3, o4⟩ := c
  cases o1 <;> cases o2 <;> cases o3 <;> cases o4 <;>
    simp only [apply_config_transformations, allClosuresAsync] <;>
    first
      | rfl
      | (split <;> simp [allClosuresAsync])

/-- When composing for an async function, one wrapping step builds an async
deferred closure and otherwise preserves the all-closures-async property. -/
theorem allClosuresAsync_wrapEntry (fn_inputs : List FnArg) (b : Code)
    (d : DecoratorCall) :
    allClosuresAsync (wrapEntry fn_inputs true b d) = allClosuresAsync b := by
  obtain ⟨cfg, path, args⟩ := d
  cases cfg <;> cases path <;>
    simp [wrapEntry, generate_validated_decorator_call,
      generate_direct_decorator_call, allClosuresAsync,
      allClosuresAsync_apply_config]

/-- Folding any entry list over an all-async body, for an async function,
keeps every deferred closure async. -/
theorem allClosuresAsync_foldl (fn_inputs : List FnArg)
    (l : List DecoratorCall) (b : Code) (hb : allClosuresAsync b = true) :
    allClosuresAsync (l.foldl (wrapEntry fn_inputs true) b) = true := by
  induction l generalizing b with
  | nil => exact hb
  | cons d ds ih =>
    exact ih _ ((allClosuresAsync_wrapEntry fn_inputs b d).trans hb)

/-- C6: for an async function (with a non-empty decorator list and no const
qualifier), the emitted function awaits the composed wrapping call as its
final step, and every deferred-evaluation closure built during composition is
itself async. -/
theorem C6_async_closures_and_await (attr : List DecoratorCall) (item : ItemFn)
    (hasync : item.asyncness = true) (hne : attr ≠ [])
    (hconst : item.constness = false) :
    decorate attr item
      = Except.ok { body := generate_decorated_body attr Code.body item.inputs true,
                    awaited := true }
    ∧ allClosuresAsync (generate_decorated_body attr Code.body item.inputs true)
      = true := by
  constructor
  · cases attr with
    | nil => exact absurd rfl hne
    | cons d ds => simp [decorate, hconst, hasync]
  · exact allClosuresAsync_foldl item.inputs attr.reverse Code.body rfl

/-- Witness for C6 at a concrete async function and singleton list. -/
theorem C6_async_closures_and_await_witness :
    decorate [{ config := none, path := DecoratorRef.staticPath 0, args := none }]
        { constness := false, asyncness := true, inputs := [] }
      = Except.ok
          { body := generate_decorated_body
              [{ config := none, path := DecoratorRef.staticPath 0, args := none }]
              Code.body [] true,
            awaited := true }
    ∧ allClosuresAsync
        (generate_decorated_body
          [{ config := none, path := DecoratorRef.staticPath 0, args := none }]
          Code.body [] true)
      = true :=
  C6_async_closures_and_await _ _ rfl (by simp) rfl

/-- Skipping a run of valid non-first segments advances the validation loop
without producing an error. -/
theorem checkSegments_append (pre : List String) (rest : List String) :
    ∀ i : Nat, 0 < i →
      (∀ t ∈ pre, t.isEmpty = false ∧ is_valid_identifier t = true) →
      checkSegments i (pre ++ rest) = checkSegments (i + pre.length) rest := by
  induction pre with
  | nil =>
    intro i _ _
    simp
  | cons a l ih =>
    intro i hi h
    obtain ⟨ha1, ha2⟩ := h a (List.mem_cons_self a l)
    have hrec := ih (i + 1) (by omega)
      (fun t ht => h t (List.mem_cons_of_mem a ht))
    simp only [List.cons_append, checkSegments, List.append_eq]
    rw [if_neg (by simp [ha1]), if_neg (by simp [ha2]), hrec]
    congr 1
    simp only [List.length_cons]
    omega

/-- Reduction of `parse_self_path` once the split is known to be non-empty. -/
theorem parse_self_path_cons (s : String) (s0 : String) (rest : List String)
    (hsp : splitChar '.' s.data = s0 :: rest) :
    parse_self_path s
      = if s0 ≠ "self" then Except.error SelfPathError.malformedSelfPath
        else
          match checkSegments 0 (s0 :: rest) with
          | Except.error e => Except.error e
          | Except.ok _ =>
            Except.ok (rest.foldl (fun e seg => SelfExpr.fieldAccess e seg)
              SelfExpr.selfIdent) := by
  unfold parse_self_path
  rw [hsp]

/-- C9 counterexample: the string "x..y" contains an empty segment, yet the
path resolver rejects it with the malformed-self-path diagnosis (the
first-segment check runs first), not with the empty-segment diagnosis the
claim requires for every string containing an empty segment. -/
theorem C9_counterexample :
    ((splitChar '.' "x..y".data).contains "" = true)
    ∧ parse_self_path "x..y" = Except.error SelfPathError.malformedSelfPath
    ∧ parse_self_path "x..y" ≠ Except.error SelfPathError.emptyPathSegment := by
  refine ⟨by decide, rfl, fun hcontra => ?_⟩
  have h2 : SelfPathError.malformedSelfPath = SelfPathError.emptyPathSegment :=
    Except.error.inj hcontra
  exact absurd h2 (by decide)

/-- C9 amended: the resolver's diagnosis is decided by the first check that
fires — a first segment different from the receiver keyword yields the
malformed-self-path diagnosis (even when later segments are empty or
invalid); otherwise the segments are scanned left to right and the first
offending segment decides: an empty segment yields the empty-segment
diagnosis, and a non-empty non-first segment failing identifier syntax
yields the invalid-identifier-segment diagnosis naming that segment. -/
theorem C9_amended_diagnosis_rules :
    (∀ s : String, (splitChar '.' s.data).head? ≠ some "self" →
        parse_self_path s = Except.error SelfPathError.malformedSelfPath)
    ∧ (∀ (s : String) (pre : List String) (seg : String) (post : List String),
        splitChar '.' s.data = "self" :: (pre ++ seg :: post) →
        (∀ t ∈ pre, t.isEmpty = false ∧ is_valid_identifier t = true) →
        seg.isEmpty = true →
        parse_self_path s = Except.error SelfPathError.emptyPathSegment)
    ∧ (∀ (s : String) (pre : List String) (seg : String) (post : List String),
        splitChar '.' s.data = "self" :: (pre ++ seg :: post) →
        (∀ t ∈ pre, t.isEmpty = false ∧ is_valid_identifier t = true) →
        seg.isEmpty = false → is_valid_identifier seg = false →
        parse_self_path s
          = Except.error (SelfPathError.invalidIdentifierSegment seg)) := by
  refine ⟨?_, ?_, ?_⟩
  · intro s h
    cases hsp : splitChar '.' s.data with
    | nil =>
      unfold parse_self_path
      rw [hsp]
    | cons s0 rest =>
      have hs0 : s0 ≠ "self" := by
        intro he
        exact h (by simp [hsp, he])
      rw [parse_self_path_cons s s0 rest hsp, if_pos hs0]
  · intro s pre seg post hsp hpre hseg
    have hc : checkSegments 0 ("self" :: (pre ++ seg :: post))
        = Except.error SelfPathError.emptyPathSegment := by
      simp only [checkSegments]
      rw [if_neg (by decide), if_neg (by simp),
        checkSegments_append pre (seg :: post) 1 Nat.one_pos hpre]
      simp only [checkSegments]
      rw [if_pos hseg]
    rw [parse_self_path_cons s "self" (pre ++ seg :: post) hsp,
      if_neg (by simp), hc]
  · intro s pre seg post hsp hpre hseg hvalid
    have hc : checkSegments 0 ("self" :: (pre ++ seg :: post))
        = Except.error (SelfPathError.invalidIdentifierSegment seg) := by
      simp only [checkSegments]
      rw [if_neg (by decide), if_neg (by simp),
        checkSegments_append pre (seg :: post) 1 Nat.one_pos hpre]
      simp only [checkSegments]
      rw [if_neg (by simp [hseg]), if_pos ⟨by omega, hvalid⟩]
    rw [parse_self_path_cons s "self" (pre ++ seg :: post) hsp,
      if_neg (by simp), hc]

/-- Witness for C9's amended theorem: one concrete input per diagnosis rule. -/
theorem C9_amended_diagnosis_rules_witness :
    parse_self_path "other.x" = Except.error SelfPathError.malformedSelfPath
    ∧ parse_self_path "self..x" = Except.error SelfPathError.emptyPathSegment
    ∧ parse_self_path "self.9a"
        = Except.error (SelfPathError.invalidIdentifierSegment "9a") :=
  ⟨C9_amended_diagnosis_rules.1 "other.x" (by decide),
   C9_amended_diagnosis_rules.2.1 "self..x" [] "" ["x"] (by decide)
     (by simp) (by decide),
   C9_amended_diagnosis_rules.2.2 "self.9a" [] "9a" [] (by decide)
     (by simp) (by decide) (by decide)⟩

/-- A present first option wins. -/
theorem pickOpt_some (v : Nat) (b : Option Nat) : pickOpt (some v) b = some v := rfl

/-- An absent first option falls back. -/
theorem pickOpt_none (b : Option Nat) : pickOpt none b = b := rfl

/-- An absent fallback changes nothing. -/
theorem pickOpt_none_right (a : Option Nat) : pickOpt a none = a := by
  cases a <;> rfl

/-- Choice among three layered options associates. -/
theorem pickOpt_assoc (a b c : Option Nat) :
    pickOpt (pickOpt a b) c = pickOpt a (pickOpt b c) := by
  cases a <;> rfl

/-- A pair whose key matches contributes its value when no later pair does. -/
theorem lastValueFor_cons_hit (k : String) (v : Nat) (rest : List (String × Nat)) :
    lastValueFor k ((k, v) :: rest) = pickOpt (lastValueFor k rest) (some v) := by
  cases h : lastValueFor k rest <;> simp [lastValueFor, pickOpt, h]

/-- A pair with a different key contributes nothing. -/
theorem lastValueFor_cons_miss (k k2 : String) (v : Nat)
    (rest : List (String × Nat)) (h : k2 ≠ k) :
    lastValueFor k ((k2, v) :: rest) = lastValueFor k rest := by
  cases h2 : lastValueFor k rest <;> simp [lastValueFor, pickOpt, h2, h]

/-- The configuration loop, started from any configuration, succeeds on valid
keys and ends with, per key, the last pair's value when one occurs and the
starting configuration's field otherwise. -/
theorem parseConfigPairs_characterization (pairs : List (String × Nat)) :
    ∀ c : DecoratorConfig,
      (∀ kv ∈ pairs, kv.1 = "pre" ∨ kv.1 = "post" ∨ kv.1 = "transform_params"
        ∨ kv.1 = "transform_result") →
      parseConfigPairs c pairs = Except.ok
        { pre_code := pickOpt (lastValueFor "pre" pairs) c.pre_code,
          post_code := pickOpt (lastValueFor "post" pairs) c.post_code,
          transform_params :=
            pickOpt (lastValueFor "transform_params" pairs) c.transform_params,
          transform_result :=
            pickOpt (lastValueFor "transform_result" pairs) c.transform_result } := by
  induction pairs with
  | nil =>
    intro c _
    rfl
  | cons kv rest ih =>
    intro c h
    obtain ⟨k, v⟩ := kv
    have hrest := fun kv hkv => h kv (List.mem_cons_of_mem _ hkv)
    have hk : k = "pre" ∨ k = "post" ∨ k = "transform_params"
        ∨ k = "transform_result" := h (k, v) (List.mem_cons_self _ _)
    rcases hk with hk | hk | hk | hk
    · subst hk
      have hstep : parseConfigPairs c (("pre", v) :: rest)
          = parseConfigPairs { c with pre_code := some v } rest := rfl
      rw [hstep, ih _ hrest,
        lastValueFor_cons_hit "pre" v rest,
        lastValueFor_cons_miss "post" "pre" v rest (by decide),
        lastValueFor_cons_miss "transform_params" "pre" v rest (by decide),
        lastValueFor_cons_miss "transform_result" "pre" v rest (by decide),
        pickOpt_assoc]
      rfl
    · subst hk
      have hstep : parseConfigPairs c (("post", v) :: rest)
          = parseConfigPairs { c with post_code := some v } rest := rfl
      rw [hstep, ih _ hrest,
        lastValueFor_cons_hit "post" v rest,
        lastValueFor_cons_miss "pre" "post" v rest (by decide),
        lastValueFor_cons_miss "transform_params" "post" v rest (by decide),
        lastValueFor_cons_miss "transform_result" "post" v rest (by decide),
        pickOpt_assoc]
      rfl
    · subst hk
      have hstep : parseConfigPairs c (("transform_params", v) :: rest)
          = parseConfigPairs { c with transform_params := some v } rest := rfl
      rw [hstep, ih _ hrest,
        lastValueFor_cons_hit "transform_params" v rest,
        lastValueFor_cons_miss "pre" "transform_params" v rest (by decide),
        lastValueFor_cons_miss "post" "transform_params" v rest (by decide),
        lastValueFor_cons_miss "transform_result" "transform_params" v rest
          (by decide),
        pickOpt_assoc]
      rfl
    · subst hk
      have hstep : parseConfigPairs c (("transform_result", v) :: rest)
          = parseConfigPairs { c with transform_result := some v } rest := rfl
      rw [hstep, ih _ hrest,
        lastValueFor_cons_hit "transform_result" v rest,
        lastValueFor_cons_miss "pre" "transform_result" v rest (by decide),
        lastValueFor_cons_miss "post" "transform_result" v rest (by decide),
        lastValueFor_cons_miss "transform_params" "transform_result" v rest
          (by decide),
        pickOpt_assoc]
      rfl

/-- C10: when the same recognized configuration key appears several times in
one entry, the configuration loop succeeds with no diagnostic and, for each
key, keeps exactly the last occurrence's value. -/
theorem C10_duplicate_config_keys_last_wins (pairs : List (String × Nat))
    (h : ∀ kv ∈ pairs, kv.1 = "pre" ∨ kv.1 = "post" ∨ kv.1 = "transform_params"
      ∨ kv.1 = "transform_result") :
    parseConfigPairs {} pairs = Except.ok
      { pre_code := lastValueFor "pre" pairs,
        post_code := lastValueFor "post" pairs,
        transform_params := lastValueFor "transform_params" pairs,
        transform_result := lastValueFor "transform_result" pairs } := by
  rw [parseConfigPairs_characterization pairs {} h]
  simp [pickOpt_none_right]

/-- Witness for C10 at a concrete pair list with a duplicated key. -/
theorem C10_duplicate_config_keys_last_wins_witness :
    parseConfigPairs {} [("pre", 1), ("pre", 2), ("post", 5)]
      = Except.ok { pre_code := some 2, post_code := some 5,
                    transform_params := none, transform_result := none } :=
  C10_duplicate_config_keys_last_wins [("pre", 1), ("pre", 2), ("post", 5)]
    (by decide)
